import Mathlib

/-!
Shallow embedding of the purposepay-api voucher core (Django apps `voucher`
and `vendor`): the wallet, voucher and redemption tables of
`voucher/models.py` / `vendor/models.py`, and the balance-mutating
operations of `voucher/serializers.py` and `voucher/views.py`.

Monetary values (`DecimalField(max_digits=12, decimal_places=2)`; DRF
rejects inputs with more than two decimal places, so every amount in the
system is an integer multiple of 0.01) are embedded exactly as the
integer number of hundredths (pesewas): `Decimal("100.00")` is `10000`.
Timestamps are integers (seconds); a
Django table as a `List` of rows, looked up with `find?` on its key and
updated by replacing every row carrying the key (the database's primary
keys are unique, which the reachability invariant below re-establishes).
An operation returns the committed state together with an optional error:
every serializer/view here wraps its writes in `transaction.atomic()`, so
an error leaves the state unchanged (except for the wallet lazily created
by `WalletDepositView.post` *before* the amount is validated, which is
kept, as in the code).
-/

namespace PurposePay

/-- Vendor categories, from `VendorProfile.CATEGORY_CHOICES` in
`vendor/models.py`. -/
inductive Category
  | PHARMACY
  | SCHOOL
  | HARDWARE
  | OTHER
deriving DecidableEq, Repr

/-- Voucher statuses, from `Voucher.STATUS_CHOICES` in `voucher/models.py`. -/
inductive VoucherStatus
  | PENDING_PAYMENT
  | ACTIVE
  | LOCKED
  | EXPIRED
deriving DecidableEq, Repr

/-- Redemption statuses, from `VoucherRedemption.STATUS_CHOICES` in
`voucher/models.py`. -/
inductive RedemptionStatus
  | PENDING
  | REDEEMED
  | CANCELLED
deriving DecidableEq, Repr

/-- Modelled from the spec: the `CustomerVoucherWallet` model is imported
from `.models` by `voucher/serializers.py` and `voucher/views.py` but its
class is absent from `voucher/models.py` under src.  Per the spec's data
model it holds the owning customer (1:1) and a non-negative decimal
balance, lazily created with balance 0. -/
structure CustomerVoucherWallet where
  customer : Nat
  balance : ℤ
deriving DecidableEq, Repr

/-- A row of the `Voucher` table of `voucher/models.py`.

The `escrow_balance` field is modelled from the spec: it is read and
written by `VoucherRedemptionConfirmSerializer.update` and listed by
`AdminVoucherDetailSerializer`, but the field declaration is absent from
`voucher/models.py` under src; per the spec it starts at 0 on creation.
`expiry_date` is nullable (`null=True`). -/
structure Voucher where
  id : Nat
  customer : Nat
  code : String
  category : Category
  initial_amount : ℤ
  remaining_balance : ℤ
  escrow_balance : ℤ
  status : VoucherStatus
  expiry_date : Option Int
deriving DecidableEq, Repr

/-- Modelled from the spec: `Voucher.PENDING` is referenced by
`VoucherCreateSerializer.create` and `VoucherActivateSimulationView.post`
but no such constant is declared in `voucher/models.py` under src.  The
spec states that a freshly created voucher's status is `PENDING_PAYMENT`
and that activation is allowed exactly from `PENDING_PAYMENT`, which are
precisely the two places the constant is used, so it denotes that
status. -/
def Voucher.PENDING : VoucherStatus := VoucherStatus.PENDING_PAYMENT

/-- The fields of `VendorProfile` (vendor/models.py) that the voucher core
reads: its key and its business category. -/
structure VendorProfile where
  id : Nat
  category : Category
deriving DecidableEq, Repr

/-- A row of the `VendorFinance` table of `vendor/models.py`: the vendor's
payable balance (1:1 with the vendor, related name `finance`). -/
structure VendorFinance where
  vendor : Nat
  balance : ℤ
deriving DecidableEq, Repr

/-- A row of the `VoucherRedemption` table of `voucher/models.py`. -/
structure VoucherRedemption where
  id : Nat
  voucher : Nat
  vendor : Nat
  redeemed_amount : ℤ
  redemption_status : RedemptionStatus
deriving DecidableEq, Repr

/-- The database state: one list per table, plus the auto-increment
counters for the two tables whose rows the modelled operations create. -/
structure St where
  wallets : List CustomerVoucherWallet
  vouchers : List Voucher
  redemptions : List VoucherRedemption
  vendors : List VendorProfile
  finances : List VendorFinance
  nextVoucherId : Nat
  nextRedemptionId : Nat
deriving DecidableEq, Repr

/-- Error kinds, one per `raise`/HTTP-error site of the embedded
operations, named after the spec's error taxonomy (section 7):
`notFound` covers Django 404s and the serializers' unknown-code /
missing-record rejections, `stateConflict` the already-redeemed
rejection, and so on. -/
inductive Err
  | invalidAmount
  | minAmount
  | insufficientFunds
  | codeCollision
  | notFound
  | invalidState
  | notActive
  | expired
  | amountTooLow
  | amountExceedsBalance
  | categoryMismatch
  | stateConflict
  | financeNotFound
  | insufficientEscrow
  | insufficientRemaining
deriving DecidableEq, Repr

/-- `CustomerVoucherWallet.objects.get(customer=c)`. -/
def lookupWallet (st : St) (c : Nat) : Option CustomerVoucherWallet :=
  st.wallets.find? fun w => w.customer == c

/-- `Voucher.objects.get(id=i)` (primary-key lookup). -/
def lookupVoucher (st : St) (i : Nat) : Option Voucher :=
  st.vouchers.find? fun v => v.id == i

/-- `Voucher.objects.get(code=c)`. -/
def lookupVoucherByCode (st : St) (c : String) : Option Voucher :=
  st.vouchers.find? fun v => v.code == c

/-- `VoucherRedemption.objects.get(id=i)` (primary-key lookup). -/
def lookupRedemption (st : St) (i : Nat) : Option VoucherRedemption :=
  st.redemptions.find? fun r => r.id == i

/-- The `vendor.finance` related-object lookup (`hasattr(vendor, "finance")`). -/
def lookupFinance (st : St) (vend : Nat) : Option VendorFinance :=
  st.finances.find? fun f => f.vendor == vend

/-- The `request.user.vendor_profile` lookup. -/
def lookupVendor (st : St) (vend : Nat) : Option VendorProfile :=
  st.vendors.find? fun p => p.id == vend

/-- Persist an updated wallet row (`wallet.save`). -/
def setWallet (ws : List CustomerVoucherWallet) (nw : CustomerVoucherWallet) :
    List CustomerVoucherWallet :=
  ws.map fun w => if w.customer = nw.customer then nw else w

/-- Persist an updated voucher row (`voucher.save`). -/
def setVoucher (vs : List Voucher) (nv : Voucher) : List Voucher :=
  vs.map fun v => if v.id = nv.id then nv else v

/-- Persist an updated redemption row (`instance.save`). -/
def setRedemption (rs : List VoucherRedemption) (nr : VoucherRedemption) :
    List VoucherRedemption :=
  rs.map fun r => if r.id = nr.id then nr else r

/-- Persist an updated vendor-finance row (`vendor.finance.save`). -/
def setFinance (fs : List VendorFinance) (nf : VendorFinance) :
    List VendorFinance :=
  fs.map fun f => if f.vendor = nf.vendor then nf else f

/-- `CustomerVoucherWallet.objects.get_or_create(customer=..)` with a
default balance of 0. -/
def ensureWallet (st : St) (cust : Nat) : St :=
  match lookupWallet st cust with
  | some _ => st
  | none => { st with wallets := ⟨cust, 0⟩ :: st.wallets }

/-- `if voucher.expiry_date and voucher.expiry_date < timezone.now()`:
the lazy expiry test shared by the reservation and confirmation
validators; a null `expiry_date` never counts as expired. -/
def expiredAt (v : Voucher) (now : Int) : Bool :=
  match v.expiry_date with
  | some t => t < now
  | none => false

/-- `default_expiry` of `voucher/models.py`: 30 days, in seconds. -/
def thirtyDays : Int := 2592000

/-- `Decimal("100.00")`, the minimum voucher amount of
`VoucherCreateSerializer.validate_initial_amount`, in hundredths. -/
def minVoucherAmount : ℤ := 10000

/-- `Decimal("50.00")`, the minimum redemption amount of
`VoucherRedemptionCreateSerializer.validate`, in hundredths. -/
def minRedemptionAmount : ℤ := 5000

/-- `WalletDepositView.post` + `WalletDepositSerializer`: the wallet is
fetched or lazily created, the amount validated strictly positive
(`validate_amount`), and the balance incremented under lock
(`deposit`).  The lazily created wallet persists even when validation
rejects the amount, as in the view. -/
def walletDeposit (st : St) (cust : Nat) (amount : ℤ) : St × Option Err :=
  let st1 := ensureWallet st cust
  match lookupWallet st1 cust with
  | none => (st1, some Err.notFound)
  | some w =>
    if amount ≤ 0 then (st1, some Err.invalidAmount)
    else
      ({ st1 with wallets := setWallet st1.wallets { w with balance := w.balance + amount } },
        none)

/-- `VoucherCreateSerializer` (`validate_initial_amount` + `create`)
together with `Voucher.save`: reject amounts below 100.00; inside one
transaction get-or-create the wallet, reject if its balance is below the
amount, debit it, and insert the voucher with
`remaining_balance = initial_amount` (set by `Voucher.save`),
`escrow_balance = 0`, status `Voucher.PENDING` and the default expiry of
now + 30 days.  A code collision is rejected by the table's uniqueness
constraint, aborting the transaction. -/
def voucherCreate (st : St) (now : Int) (cust : Nat) (cat : Category)
    (amount : ℤ) (code : String) : St × Option Err :=
  if amount < minVoucherAmount then (st, some Err.minAmount)
  else
    let st1 := ensureWallet st cust
    match lookupWallet st1 cust with
    | none => (st, some Err.notFound)
    | some w =>
      if w.balance < amount then (st, some Err.insufficientFunds)
      else if (lookupVoucherByCode st1 code).isSome then (st, some Err.codeCollision)
      else
        let v : Voucher :=
          { id := st1.nextVoucherId, customer := cust, code := code, category := cat,
            initial_amount := amount, remaining_balance := amount, escrow_balance := 0,
            status := Voucher.PENDING, expiry_date := some (now + thirtyDays) }
        ({ st1 with
            wallets := setWallet st1.wallets { w with balance := w.balance - amount },
            vouchers := v :: st1.vouchers,
            nextVoucherId := st1.nextVoucherId + 1 }, none)

/-- `VoucherActivateSimulationView.post`: fetch the voucher by id and
owner (404 `notFound` if absent or not owned), reject with
`invalidState` unless the status is `Voucher.PENDING`, else set it to
`ACTIVE`. -/
def voucherActivate (st : St) (cust : Nat) (vid : Nat) : St × Option Err :=
  match lookupVoucher st vid with
  | none => (st, some Err.notFound)
  | some v =>
    if v.customer ≠ cust then (st, some Err.notFound)
    else if v.status ≠ Voucher.PENDING then (st, some Err.invalidState)
    else
      ({ st with vouchers := setVoucher st.vouchers { v with status := VoucherStatus.ACTIVE } },
        none)

/-- `VoucherRedemptionCreateSerializer.validate` + `create` (behind
`VoucherRedemptionCreateView`): resolve the voucher by code, require it
ACTIVE, unexpired, the amount at least 50.00, the amount at most the
voucher's (gross) `remaining_balance`, and the category equal to the
vendor's; then insert the redemption with the default status `PENDING`.
The serializer never touches the voucher row — in particular it does not
increment `escrow_balance`. -/
def redemptionCreate (st : St) (now : Int) (vendorId : Nat) (code : String)
    (amount : ℤ) : St × Option Err :=
  match lookupVendor st vendorId with
  | none => (st, some Err.notFound)
  | some vendor =>
    match lookupVoucherByCode st code with
    | none => (st, some Err.notFound)
    | some v =>
      if v.status ≠ VoucherStatus.ACTIVE then (st, some Err.notActive)
      else if expiredAt v now then (st, some Err.expired)
      else if amount < minRedemptionAmount then (st, some Err.amountTooLow)
      else if amount > v.remaining_balance then (st, some Err.amountExceedsBalance)
      else if v.category ≠ vendor.category then (st, some Err.categoryMismatch)
      else
        let r : VoucherRedemption :=
          { id := st.nextRedemptionId, voucher := v.id, vendor := vendorId,
            redeemed_amount := amount, redemption_status := RedemptionStatus.PENDING }
        ({ st with redemptions := r :: st.redemptions,
                   nextRedemptionId := st.nextRedemptionId + 1 }, none)

/-- `VoucherRedemptionCancelView`: the queryset only contains redemptions
whose voucher belongs to the requesting customer and whose status is
`PENDING` (anything else is a 404 `notFound`); `update` then sets the
status to `CANCELLED` and saves only that field — the voucher row, and
in particular its `escrow_balance`, is untouched. -/
def redemptionCancel (st : St) (cust : Nat) (rid : Nat) : St × Option Err :=
  match lookupRedemption st rid with
  | none => (st, some Err.notFound)
  | some r =>
    match lookupVoucher st r.voucher with
    | none => (st, some Err.notFound)
    | some v =>
      if v.customer = cust ∧ r.redemption_status = RedemptionStatus.PENDING then
        ({ st with redemptions :=
            setRedemption st.redemptions { r with redemption_status := RedemptionStatus.CANCELLED } },
          none)
      else (st, some Err.notFound)

/-- `VoucherRedemptionConfirmView` + `VoucherRedemptionConfirmSerializer`:
the queryset exposes only the requesting customer's `PENDING`
redemptions (else 404 `notFound`); `validate` rejects an already
`REDEEMED` instance, a voucher that is not `ACTIVE`, and an expired
voucher; `update` then — inside one transaction — requires the vendor's
finance record, re-checks `REDEEMED`, requires the amount at most the
voucher's `escrow_balance` and at most its `remaining_balance`, marks
the redemption `REDEEMED`, moves the amount from the voucher's escrow
and remaining balances to the vendor finance balance, and, if the
remaining balance reached 0, sets the voucher `LOCKED` and flips every
other `PENDING` redemption of this voucher to `CANCELLED` (a bulk
status update that does not touch escrow). -/
def redemptionConfirm (st : St) (now : Int) (cust : Nat) (rid : Nat) :
    St × Option Err :=
  match lookupRedemption st rid with
  | none => (st, some Err.notFound)
  | some r =>
    match lookupVoucher st r.voucher with
    | none => (st, some Err.notFound)
    | some v =>
      if v.customer = cust ∧ r.redemption_status = RedemptionStatus.PENDING then
        if r.redemption_status = RedemptionStatus.REDEEMED then (st, some Err.stateConflict)
        else if v.status ≠ VoucherStatus.ACTIVE then (st, some Err.notActive)
        else if expiredAt v now then (st, some Err.expired)
        else
          match lookupFinance st r.vendor with
          | none => (st, some Err.financeNotFound)
          | some fin =>
            if r.redemption_status = RedemptionStatus.REDEEMED then (st, some Err.stateConflict)
            else
              let amount := r.redeemed_amount
              if amount > v.escrow_balance then (st, some Err.insufficientEscrow)
              else if amount > v.remaining_balance then (st, some Err.insufficientRemaining)
              else
                let r' := { r with redemption_status := RedemptionStatus.REDEEMED }
                let fin' := { fin with balance := fin.balance + amount }
                if v.remaining_balance - amount ≤ 0 then
                  let v' := { v with escrow_balance := v.escrow_balance - amount,
                                     remaining_balance := 0,
                                     status := VoucherStatus.LOCKED }
                  ({ st with
                      vouchers := setVoucher st.vouchers v',
                      redemptions := (setRedemption st.redemptions r').map fun q =>
                        if q.voucher = v.id ∧ q.redemption_status = RedemptionStatus.PENDING ∧
                            q.id ≠ rid then
                          { q with redemption_status := RedemptionStatus.CANCELLED }
                        else q,
                      finances := setFinance st.finances fin' }, none)
                else
                  let v' := { v with escrow_balance := v.escrow_balance - amount,
                                     remaining_balance := v.remaining_balance - amount }
                  ({ st with
                      vouchers := setVoucher st.vouchers v',
                      redemptions := setRedemption st.redemptions r',
                      finances := setFinance st.finances fin' }, none)
      else (st, some Err.notFound)

/-- The empty database, with the externally provisioned vendor tables
(vendor onboarding is outside the voucher core). -/
def St.init (vendors : List VendorProfile) (finances : List VendorFinance) : St :=
  { wallets := [], vouchers := [], redemptions := [], vendors := vendors,
    finances := finances, nextVoucherId := 0, nextRedemptionId := 0 }

/-- One committed request against the API: whatever state the operation
persists, whether or not it also reports an error. -/
inductive Step : St → St → Prop
  | deposit (st : St) (cust : Nat) (amount : ℤ) :
      Step st (walletDeposit st cust amount).1
  | vcreate (st : St) (now : Int) (cust : Nat) (cat : Category) (amount : ℤ)
      (code : String) : Step st (voucherCreate st now cust cat amount code).1
  | activate (st : St) (cust vid : Nat) :
      Step st (voucherActivate st cust vid).1
  | rcreate (st : St) (now : Int) (vendorId : Nat) (code : String) (amount : ℤ) :
      Step st (redemptionCreate st now vendorId code amount).1
  | rcancel (st : St) (cust rid : Nat) :
      Step st (redemptionCancel st cust rid).1
  | rconfirm (st : St) (now : Int) (cust rid : Nat) :
      Step st (redemptionConfirm st now cust rid).1

/-- States reachable from an initial database by the modelled operations. -/
inductive Reachable : St → Prop
  | init (vendors : List VendorProfile) (finances : List VendorFinance) :
      Reachable (St.init vendors finances)
  | step {st st' : St} : Reachable st → Step st st' → Reachable st'

/-! ### Generic lemmas about keyed row lists -/

/-- `find?` on a key commutes with a row update that does not change keys. -/
theorem find?_map_of_key {α κ : Type} [BEq κ] (key : α → κ) (g : α → α)
    (hk : ∀ x, key (g x) = key x) (k : κ) (l : List α) :
    (l.map g).find? (fun x => key x == k) = (l.find? fun x => key x == k).map g := by
  induction l with
  | nil => rfl
  | cons x xs ih =>
    simp only [List.map_cons]
    by_cases h : (key x == k) = true
    · rw [@List.find?_cons_of_pos _ (fun y => key y == k) (g x) (xs.map g)
          (by simpa [hk] using h),
        @List.find?_cons_of_pos _ (fun y => key y == k) x xs h]
      rfl
    · rw [@List.find?_cons_of_neg _ (fun y => key y == k) (g x) (xs.map g)
          (by simpa [hk] using h),
        @List.find?_cons_of_neg _ (fun y => key y == k) x xs h, ih]

/-- A row update that does not change keys leaves the key column alone. -/
theorem map_key_map_of_key {α κ : Type} (key : α → κ) (g : α → α)
    (hk : ∀ x, key (g x) = key x) (l : List α) :
    (l.map g).map key = l.map key := by
  rw [List.map_map]
  exact List.map_congr_left fun x _ => hk x

/-- With no duplicate keys, looking a row's own key up returns the row. -/
theorem find?_key_eq_self {α κ : Type} [BEq κ] [LawfulBEq κ] (key : α → κ) :
    ∀ {l : List α}, (l.map key).Nodup → ∀ {x : α}, x ∈ l →
      l.find? (fun y => key y == key x) = some x := by
  intro l
  induction l with
  | nil => intro _ x hx; cases hx
  | cons a as ih =>
    intro hnd x hx
    rw [List.map_cons, List.nodup_cons] at hnd
    rcases List.mem_cons.mp hx with rfl | hx'
    · exact List.find?_cons_of_pos _ (by simp)
    · have hne : (key a == key x) = false := by
        rw [beq_eq_false_iff_ne]
        intro hcontra
        exact hnd.1 (hcontra ▸ List.mem_map_of_mem key hx')
      rw [List.find?_cons_of_neg _ (by simp [hne])]
      exact ih hnd.2 hx'

/-- Pointwise reasoning about a mapped table. -/
theorem forall_mem_map_of {α : Type} {P : α → Prop} (g : α → α) {l : List α}
    (h : ∀ x ∈ l, P (g x)) : ∀ y ∈ l.map g, P y := by
  intro y hy
  rcases List.mem_map.mp hy with ⟨x, hx, rfl⟩
  exact h x hx

/-- Row replacement (`setVoucher`) does not change the id column. -/
theorem setVoucher_key (x nv : Voucher) :
    (if x.id = nv.id then nv else x).id = x.id := by
  by_cases h : x.id = nv.id <;> simp [h]

/-- Row replacement (`setRedemption`) does not change the id column. -/
theorem setRedemption_key (x nr : VoucherRedemption) :
    (if x.id = nr.id then nr else x).id = x.id := by
  by_cases h : x.id = nr.id <;> simp [h]

/-- `find?` by id over a `setVoucher` update. -/
theorem find?_setVoucher (vs : List Voucher) (nv : Voucher) (j : Nat) :
    (setVoucher vs nv).find? (fun v => v.id == j) =
      ((vs.find? fun v => v.id == j).map fun v => if v.id = nv.id then nv else v) :=
  find?_map_of_key Voucher.id _ (fun x => setVoucher_key x nv) j vs

/-- `find?` by id over a `setRedemption` update. -/
theorem find?_setRedemption (rs : List VoucherRedemption) (nr : VoucherRedemption) (j : Nat) :
    (setRedemption rs nr).find? (fun r => r.id == j) =
      ((rs.find? fun r => r.id == j).map fun r => if r.id = nr.id then nr else r) :=
  find?_map_of_key VoucherRedemption.id _ (fun x => setRedemption_key x nr) j rs

/-! ### The inductive reachability invariant -/

/-- Row replacement (`setWallet`) does not change the customer column. -/
theorem setWallet_key (x nw : CustomerVoucherWallet) :
    (if x.customer = nw.customer then nw else x).customer = x.customer := by
  by_cases h : x.customer = nw.customer <;> simp [h]

/-- Row replacement (`setFinance`) does not change the vendor column. -/
theorem setFinance_key (x nf : VendorFinance) :
    (if x.vendor = nf.vendor then nf else x).vendor = x.vendor := by
  by_cases h : x.vendor = nf.vendor <;> simp [h]

/-- `find?` by customer over a `setWallet` update. -/
theorem find?_setWallet (ws : List CustomerVoucherWallet)
    (nw : CustomerVoucherWallet) (j : Nat) :
    (setWallet ws nw).find? (fun w => w.customer == j) =
      ((ws.find? fun w => w.customer == j).map fun w =>
        if w.customer = nw.customer then nw else w) :=
  find?_map_of_key CustomerVoucherWallet.customer _ (fun x => setWallet_key x nw) j ws

/-- `find?` by vendor over a `setFinance` update. -/
theorem find?_setFinance (fs : List VendorFinance) (nf : VendorFinance) (j : Nat) :
    (setFinance fs nf).find? (fun f => f.vendor == j) =
      ((fs.find? fun f => f.vendor == j).map fun f =>
        if f.vendor = nf.vendor then nf else f) :=
  find?_map_of_key VendorFinance.vendor _ (fun x => setFinance_key x nf) j fs

/-- Updating the row found under a key makes the new row the lookup result. -/
theorem find?_setVoucher_self {vs : List Voucher} {j : Nat} {v nv : Voucher}
    (hv : vs.find? (fun y => y.id == j) = some v) (hid : nv.id = v.id) :
    (setVoucher vs nv).find? (fun y => y.id == j) = some nv := by
  rw [find?_setVoucher, hv, Option.map_some', if_pos hid.symm]

/-- Updating the row found under a key makes the new row the lookup result. -/
theorem find?_setRedemption_self {rs : List VoucherRedemption} {j : Nat}
    {r nr : VoucherRedemption}
    (hr : rs.find? (fun y => y.id == j) = some r) (hid : nr.id = r.id) :
    (setRedemption rs nr).find? (fun y => y.id == j) = some nr := by
  rw [find?_setRedemption, hr, Option.map_some', if_pos hid.symm]

/-- Updating the row found under a key makes the new row the lookup result. -/
theorem find?_setFinance_self {fs : List VendorFinance} {j : Nat}
    {f nf : VendorFinance}
    (hf : fs.find? (fun y => y.vendor == j) = some f) (hid : nf.vendor = f.vendor) :
    (setFinance fs nf).find? (fun y => y.vendor == j) = some nf := by
  rw [find?_setFinance, hf, Option.map_some', if_pos hid.symm]

/-- Updating the row found under a key makes the new row the lookup result. -/
theorem find?_setWallet_self {ws : List CustomerVoucherWallet} {j : Nat}
    {w nw : CustomerVoucherWallet}
    (hw : ws.find? (fun y => y.customer == j) = some w)
    (hid : nw.customer = w.customer) :
    (setWallet ws nw).find? (fun y => y.customer == j) = some nw := by
  rw [find?_setWallet, hw, Option.map_some', if_pos hid.symm]

/-- `find?` by id over the cascade bulk update. -/
theorem find?_cascade (rs : List VoucherRedemption) (vid rid j : Nat) :
    (rs.map fun q =>
      if q.voucher = vid ∧ q.redemption_status = RedemptionStatus.PENDING ∧ q.id ≠ rid
      then { q with redemption_status := RedemptionStatus.CANCELLED } else q).find?
        (fun y => y.id == j) =
      ((rs.find? fun y => y.id == j).map fun q =>
        if q.voucher = vid ∧ q.redemption_status = RedemptionStatus.PENDING ∧ q.id ≠ rid
        then { q with redemption_status := RedemptionStatus.CANCELLED } else q) :=
  find?_map_of_key VoucherRedemption.id _ (fun q => by
    by_cases hc : q.voucher = vid ∧ q.redemption_status = RedemptionStatus.PENDING ∧
      q.id ≠ rid
    · rw [if_pos hc]
    · rw [if_neg hc]) j rs

/-- `get_or_create` is the identity when the wallet row already exists. -/
theorem ensureWallet_eq {st : St} {cust : Nat} {w : CustomerVoucherWallet}
    (hw : lookupWallet st cust = some w) : ensureWallet st cust = st := by
  unfold ensureWallet
  rw [hw]

/-- The per-voucher predicate of the spec's testable properties:
`0 ≤ escrow_balance ≤ remaining_balance ≤ initial_amount`, and a drained
voucher is `LOCKED`. -/
def VoucherOk (v : Voucher) : Prop :=
  0 ≤ v.escrow_balance ∧ v.escrow_balance ≤ v.remaining_balance ∧
    v.remaining_balance ≤ v.initial_amount ∧
    (v.remaining_balance = 0 → v.status = VoucherStatus.LOCKED)

/-- The inductive invariant carried along `Reachable`: every voucher
satisfies `VoucherOk`; voucher primary keys are unique and below the
auto-increment counter; redemption rows reference allocated voucher keys,
carry non-negative amounts, and, while `PENDING`, point at an `ACTIVE`
voucher; wallet balances are non-negative. -/
structure Inv (st : St) : Prop where
  vouchersOk : ∀ v ∈ st.vouchers, VoucherOk v
  idsNodup : (st.vouchers.map Voucher.id).Nodup
  idsBound : ∀ v ∈ st.vouchers, v.id < st.nextVoucherId
  fkBound : ∀ r ∈ st.redemptions, r.voucher < st.nextVoucherId
  amountsNonneg : ∀ r ∈ st.redemptions, 0 ≤ r.redeemed_amount
  pendingActive : ∀ r ∈ st.redemptions,
    r.redemption_status = RedemptionStatus.PENDING →
    ∀ v, lookupVoucher st r.voucher = some v → v.status = VoucherStatus.ACTIVE
  walletsNonneg : ∀ w ∈ st.wallets, 0 ≤ w.balance

theorem Inv.init (vendors : List VendorProfile) (finances : List VendorFinance) :
    Inv (St.init vendors finances) := by
  constructor <;> simp [St.init]

theorem mem_of_lookupWallet {st : St} {c : Nat} {w : CustomerVoucherWallet}
    (h : lookupWallet st c = some w) : w ∈ st.wallets :=
  List.mem_of_find?_eq_some h

theorem mem_of_lookupVoucher {st : St} {i : Nat} {v : Voucher}
    (h : lookupVoucher st i = some v) : v ∈ st.vouchers :=
  List.mem_of_find?_eq_some h

theorem mem_of_lookupVoucherByCode {st : St} {c : String} {v : Voucher}
    (h : lookupVoucherByCode st c = some v) : v ∈ st.vouchers :=
  List.mem_of_find?_eq_some h

theorem mem_of_lookupRedemption {st : St} {i : Nat} {r : VoucherRedemption}
    (h : lookupRedemption st i = some r) : r ∈ st.redemptions :=
  List.mem_of_find?_eq_some h

theorem lookupVoucher_id {st : St} {i : Nat} {v : Voucher}
    (h : lookupVoucher st i = some v) : v.id = i := by
  simpa using List.find?_some h

theorem lookupRedemption_id {st : St} {i : Nat} {r : VoucherRedemption}
    (h : lookupRedemption st i = some r) : r.id = i := by
  simpa using List.find?_some h

/-- Replacing one wallet row by a non-negative one keeps all balances
non-negative. -/
theorem walletsNonneg_set {ws : List CustomerVoucherWallet}
    {nw : CustomerVoucherWallet} (hall : ∀ w ∈ ws, 0 ≤ w.balance)
    (hn : 0 ≤ nw.balance) : ∀ w ∈ setWallet ws nw, 0 ≤ w.balance := by
  unfold setWallet
  refine forall_mem_map_of _ ?_
  intro x hx
  by_cases hc : x.customer = nw.customer
  · simpa [hc] using hn
  · simpa [hc] using hall x hx

theorem inv_ensureWallet {st : St} (h : Inv st) (cust : Nat) :
    Inv (ensureWallet st cust) := by
  unfold ensureWallet
  cases hw : lookupWallet st cust with
  | some w => exact h
  | none =>
    refine ⟨h.vouchersOk, h.idsNodup, h.idsBound, h.fkBound, h.amountsNonneg, ?_, ?_⟩
    · intro r hr hp v hv
      exact h.pendingActive r hr hp v hv
    · intro w hw'
      rcases List.mem_cons.mp hw' with rfl | hmem
      · exact le_refl 0
      · exact h.walletsNonneg w hmem

theorem inv_walletDeposit {st : St} (h : Inv st) (cust : Nat) (amount : ℤ) :
    Inv (walletDeposit st cust amount).1 := by
  unfold walletDeposit
  dsimp only
  have h1 : Inv (ensureWallet st cust) := inv_ensureWallet h cust
  cases hw : lookupWallet (ensureWallet st cust) cust with
  | none => exact h1
  | some w =>
    dsimp only
    by_cases ha : amount ≤ 0
    · rw [if_pos ha]
      exact h1
    · rw [if_neg ha]
      refine ⟨h1.vouchersOk, h1.idsNodup, h1.idsBound, h1.fkBound,
        h1.amountsNonneg, ?_, ?_⟩
      · intro r hr hp v hv
        exact h1.pendingActive r hr hp v hv
      · exact walletsNonneg_set h1.walletsNonneg
          (add_nonneg (h1.walletsNonneg w (mem_of_lookupWallet hw)) (le_of_not_le ha))

theorem inv_voucherCreate {st : St} (h : Inv st) (now : Int) (cust : Nat)
    (cat : Category) (amount : ℤ) (code : String) :
    Inv (voucherCreate st now cust cat amount code).1 := by
  unfold voucherCreate
  dsimp only
  by_cases hmin : amount < minVoucherAmount
  · rw [if_pos hmin]
    exact h
  · rw [if_neg hmin]
    have h1 : Inv (ensureWallet st cust) := inv_ensureWallet h cust
    have hamt : minVoucherAmount ≤ amount := le_of_not_lt hmin
    have hamt0 : 0 < amount := lt_of_lt_of_le (by norm_num [minVoucherAmount]) hamt
    cases hw : lookupWallet (ensureWallet st cust) cust with
    | none => exact h
    | some w =>
      dsimp only
      by_cases hbal : w.balance < amount
      · rw [if_pos hbal]
        exact h
      · rw [if_neg hbal]
        by_cases hcode : (lookupVoucherByCode (ensureWallet st cust) code).isSome = true
        · rw [if_pos hcode]
          exact h
        · rw [if_neg hcode]
          refine ⟨?_, ?_, ?_, ?_, h1.amountsNonneg, ?_, ?_⟩
          · intro x hx
            rcases List.mem_cons.mp hx with rfl | hmem
            · refine ⟨le_refl 0, le_of_lt hamt0, le_refl amount, ?_⟩
              intro h0
              exact absurd (show amount = 0 from h0) (by omega)
            · exact h1.vouchersOk x hmem
          · rw [List.map_cons, List.nodup_cons]
            refine ⟨?_, h1.idsNodup⟩
            intro hmem
            rcases List.mem_map.mp hmem with ⟨x, hx, hid⟩
            have hid' : x.id = (ensureWallet st cust).nextVoucherId := hid
            exact absurd (hid' ▸ h1.idsBound x hx)
              (lt_irrefl (ensureWallet st cust).nextVoucherId)
          · intro x hx
            rcases List.mem_cons.mp hx with rfl | hmem
            · exact Nat.lt_succ_self _
            · exact Nat.lt_succ_of_lt (h1.idsBound x hmem)
          · intro r hr
            exact Nat.lt_succ_of_lt (h1.fkBound r hr)
          · intro r hr hp v hv
            simp only [lookupVoucher] at hv
            rw [List.find?_cons_of_neg _ (by
              simp only [beq_iff_eq]
              exact fun hc => absurd (hc ▸ h1.fkBound r hr) (lt_irrefl _))] at hv
            exact h1.pendingActive r hr hp v hv
          · exact walletsNonneg_set h1.walletsNonneg
              (sub_nonneg.mpr (le_of_not_lt hbal))

/-- Replacing one voucher row by an `ACTIVE` one cannot break the
pending-requests-point-at-active-vouchers property, as long as every
pending row of the new state traces back to a pending row of the old
state over the same voucher. -/
theorem pendingActive_after_set {st st' : St} {nv : Voucher}
    (h : ∀ r ∈ st.redemptions, r.redemption_status = RedemptionStatus.PENDING →
      ∀ v, lookupVoucher st r.voucher = some v → v.status = VoucherStatus.ACTIVE)
    (hvch : st'.vouchers = setVoucher st.vouchers nv)
    (hnv : nv.status = VoucherStatus.ACTIVE)
    (hred : ∀ r ∈ st'.redemptions, r.redemption_status = RedemptionStatus.PENDING →
      ∃ r0 ∈ st.redemptions, r0.redemption_status = RedemptionStatus.PENDING ∧
        r0.voucher = r.voucher) :
    ∀ r ∈ st'.redemptions, r.redemption_status = RedemptionStatus.PENDING →
      ∀ v, lookupVoucher st' r.voucher = some v → v.status = VoucherStatus.ACTIVE := by
  intro r hrmem hp v hvl
  rcases hred r hrmem hp with ⟨r0, hr0mem, hr0p, hr0v⟩
  simp only [lookupVoucher, hvch] at hvl
  rw [find?_setVoucher] at hvl
  cases hold : st.vouchers.find? (fun y => y.id == r.voucher) with
  | none =>
    rw [hold] at hvl
    cases hvl
  | some w0 =>
    rw [hold, Option.map_some'] at hvl
    have hv' := Option.some.inj hvl
    by_cases hc : w0.id = nv.id
    · rw [if_pos hc] at hv'
      rw [← hv']
      exact hnv
    · rw [if_neg hc] at hv'
      rw [← hv']
      exact h r0 hr0mem hr0p w0 (by rw [hr0v]; exact hold)

theorem inv_voucherActivate {st : St} (h : Inv st) (cust vid : Nat) :
    Inv (voucherActivate st cust vid).1 := by
  unfold voucherActivate
  cases hv : lookupVoucher st vid with
  | none => exact h
  | some v =>
    dsimp only
    by_cases hown : v.customer ≠ cust
    · rw [if_pos hown]
      exact h
    · rw [if_neg hown]
      by_cases hst : v.status ≠ Voucher.PENDING
      · rw [if_pos hst]
        exact h
      · rw [if_neg hst]
        have hstat : v.status = VoucherStatus.PENDING_PAYMENT := not_not.mp hst
        have hvmem := mem_of_lookupVoucher hv
        have hvok := h.vouchersOk v hvmem
        refine ⟨?_, ?_, ?_, h.fkBound, h.amountsNonneg, ?_, h.walletsNonneg⟩
        · unfold setVoucher
          refine forall_mem_map_of _ ?_
          intro x hx
          by_cases hc : x.id = ({ v with status := VoucherStatus.ACTIVE } : Voucher).id
          · rw [if_pos hc]
            refine ⟨hvok.1, hvok.2.1, hvok.2.2.1, ?_⟩
            intro h0
            have h0' : v.remaining_balance = 0 := h0
            have hlk := hvok.2.2.2 h0'
            rw [hstat] at hlk
            exact absurd hlk (by decide)
          · rw [if_neg hc]
            exact h.vouchersOk x hx
        · unfold setVoucher
          rw [map_key_map_of_key Voucher.id _ (fun x => setVoucher_key x _)]
          exact h.idsNodup
        · unfold setVoucher
          refine forall_mem_map_of _ ?_
          intro x hx
          by_cases hc : x.id = ({ v with status := VoucherStatus.ACTIVE } : Voucher).id
          · rw [if_pos hc]
            exact h.idsBound v hvmem
          · rw [if_neg hc]
            exact h.idsBound x hx
        · exact pendingActive_after_set h.pendingActive rfl rfl
            (fun r hr hp => ⟨r, hr, hp, rfl⟩)

theorem inv_redemptionCreate {st : St} (h : Inv st) (now : Int) (vendorId : Nat)
    (code : String) (amount : ℤ) :
    Inv (redemptionCreate st now vendorId code amount).1 := by
  unfold redemptionCreate
  cases hvend : lookupVendor st vendorId with
  | none => exact h
  | some vendor =>
    dsimp only
    cases hvc : lookupVoucherByCode st code with
    | none => exact h
    | some v =>
      dsimp only
      by_cases h1 : v.status ≠ VoucherStatus.ACTIVE
      · rw [if_pos h1]
        exact h
      · rw [if_neg h1]
        by_cases h2 : expiredAt v now = true
        · rw [if_pos h2]
          exact h
        · rw [if_neg h2]
          by_cases h3 : amount < minRedemptionAmount
          · rw [if_pos h3]
            exact h
          · rw [if_neg h3]
            by_cases h4 : amount > v.remaining_balance
            · rw [if_pos h4]
              exact h
            · rw [if_neg h4]
              by_cases h5 : v.category ≠ vendor.category
              · rw [if_pos h5]
                exact h
              · rw [if_neg h5]
                have hvmem := mem_of_lookupVoucherByCode hvc
                refine ⟨h.vouchersOk, h.idsNodup, h.idsBound, ?_, ?_, ?_,
                  h.walletsNonneg⟩
                · intro r hr
                  rcases List.mem_cons.mp hr with rfl | hmem
                  · exact h.idsBound v hvmem
                  · exact h.fkBound r hmem
                · intro r hr
                  rcases List.mem_cons.mp hr with rfl | hmem
                  · exact le_trans (by norm_num [minRedemptionAmount])
                      (le_of_not_lt h3)
                  · exact h.amountsNonneg r hmem
                · intro r hr hp w hw
                  rcases List.mem_cons.mp hr with rfl | hmem
                  · have hcan : st.vouchers.find? (fun y => y.id == v.id) = some v :=
                      find?_key_eq_self Voucher.id h.idsNodup hvmem
                    have hw' : st.vouchers.find? (fun y => y.id == v.id) = some w := hw
                    rw [hcan] at hw'
                    cases hw'
                    exact not_not.mp h1
                  · exact h.pendingActive r hmem hp w hw

theorem inv_redemptionCancel {st : St} (h : Inv st) (cust rid : Nat) :
    Inv (redemptionCancel st cust rid).1 := by
  unfold redemptionCancel
  cases hr : lookupRedemption st rid with
  | none => exact h
  | some r =>
    dsimp only
    cases hv : lookupVoucher st r.voucher with
    | none => exact h
    | some v =>
      dsimp only
      by_cases hg : v.customer = cust ∧ r.redemption_status = RedemptionStatus.PENDING
      · rw [if_pos hg]
        have hrmem := mem_of_lookupRedemption hr
        refine ⟨h.vouchersOk, h.idsNodup, h.idsBound, ?_, ?_, ?_, h.walletsNonneg⟩
        · unfold setRedemption
          refine forall_mem_map_of _ ?_
          intro x hx
          by_cases hc :
            x.id = ({ r with redemption_status := RedemptionStatus.CANCELLED } :
              VoucherRedemption).id
          · rw [if_pos hc]
            exact h.fkBound r hrmem
          · rw [if_neg hc]
            exact h.fkBound x hx
        · unfold setRedemption
          refine forall_mem_map_of _ ?_
          intro x hx
          by_cases hc :
            x.id = ({ r with redemption_status := RedemptionStatus.CANCELLED } :
              VoucherRedemption).id
          · rw [if_pos hc]
            exact h.amountsNonneg r hrmem
          · rw [if_neg hc]
            exact h.amountsNonneg x hx
        · intro q hq hp w hw
          have hq' : q ∈ setRedemption st.redemptions
              { r with redemption_status := RedemptionStatus.CANCELLED } := hq
          unfold setRedemption at hq'
          rcases List.mem_map.mp hq' with ⟨x, hx, hxe⟩
          by_cases hc :
            x.id = ({ r with redemption_status := RedemptionStatus.CANCELLED } :
              VoucherRedemption).id
          · rw [if_pos hc] at hxe
            rw [← hxe] at hp
            exact absurd
              (show RedemptionStatus.CANCELLED = RedemptionStatus.PENDING from hp)
              (by decide)
          · rw [if_neg hc] at hxe
            subst hxe
            exact h.pendingActive x hx hp w hw
      · rw [if_neg hg]
        exact h

/-- The cascade bulk update flips only the status column. -/
theorem cascade_voucher (vid rid : Nat) (q : VoucherRedemption) :
    (if q.voucher = vid ∧ q.redemption_status = RedemptionStatus.PENDING ∧ q.id ≠ rid
      then { q with redemption_status := RedemptionStatus.CANCELLED } else q).voucher
      = q.voucher := by
  by_cases hc : q.voucher = vid ∧ q.redemption_status = RedemptionStatus.PENDING ∧ q.id ≠ rid
  · rw [if_pos hc]
  · rw [if_neg hc]

/-- The cascade bulk update leaves the amount column alone. -/
theorem cascade_amount (vid rid : Nat) (q : VoucherRedemption) :
    (if q.voucher = vid ∧ q.redemption_status = RedemptionStatus.PENDING ∧ q.id ≠ rid
      then { q with redemption_status := RedemptionStatus.CANCELLED } else q).redeemed_amount
      = q.redeemed_amount := by
  by_cases hc : q.voucher = vid ∧ q.redemption_status = RedemptionStatus.PENDING ∧ q.id ≠ rid
  · rw [if_pos hc]
  · rw [if_neg hc]

theorem inv_redemptionConfirm {st : St} (h : Inv st) (now : Int) (cust rid : Nat) :
    Inv (redemptionConfirm st now cust rid).1 := by
  unfold redemptionConfirm
  cases hr : lookupRedemption st rid with
  | none => exact h
  | some r =>
    dsimp only
    cases hv : lookupVoucher st r.voucher with
    | none => exact h
    | some v =>
      dsimp only
      by_cases hg : v.customer = cust ∧ r.redemption_status = RedemptionStatus.PENDING
      · rw [if_pos hg]
        by_cases hred : r.redemption_status = RedemptionStatus.REDEEMED
        · rw [if_pos hred]
          exact h
        · rw [if_neg hred]
          by_cases hact : v.status ≠ VoucherStatus.ACTIVE
          · rw [if_pos hact]
            exact h
          · rw [if_neg hact]
            by_cases hexp : expiredAt v now = true
            · rw [if_pos hexp]
              exact h
            · rw [if_neg hexp]
              cases hfin : lookupFinance st r.vendor with
              | none => exact h
              | some fin =>
                dsimp only
                by_cases hred2 : r.redemption_status = RedemptionStatus.REDEEMED
                · rw [if_pos hred2]
                  exact h
                · rw [if_neg hred2]
                  by_cases hesc : r.redeemed_amount > v.escrow_balance
                  · rw [if_pos hesc]
                    exact h
                  · rw [if_neg hesc]
                    by_cases hrem : r.redeemed_amount > v.remaining_balance
                    · rw [if_pos hrem]
                      exact h
                    · rw [if_neg hrem]
                      have hvmem := mem_of_lookupVoucher hv
                      have hrmem := mem_of_lookupRedemption hr
                      obtain ⟨hv1, hv2, hv3, _⟩ := h.vouchersOk v hvmem
                      have hvid : v.id = r.voucher := lookupVoucher_id hv
                      have hrid : r.id = rid := lookupRedemption_id hr
                      have hvact : v.status = VoucherStatus.ACTIVE := not_not.mp hact
                      have hann : 0 ≤ r.redeemed_amount := h.amountsNonneg r hrmem
                      have hesc' : r.redeemed_amount ≤ v.escrow_balance := not_lt.mp hesc
                      have hrem' : r.redeemed_amount ≤ v.remaining_balance := not_lt.mp hrem
                      by_cases hz : v.remaining_balance - r.redeemed_amount ≤ 0
                      · rw [if_pos hz]
                        refine ⟨?_, ?_, ?_, ?_, ?_, ?_, h.walletsNonneg⟩
                        · unfold setVoucher
                          refine forall_mem_map_of _ ?_
                          intro x hx
                          by_cases hc : x.id =
                            ({ v with escrow_balance := v.escrow_balance - r.redeemed_amount,
                                      remaining_balance := 0,
                                      status := VoucherStatus.LOCKED } : Voucher).id
                          · rw [if_pos hc]
                            refine ⟨?_, ?_, ?_, fun _ => rfl⟩
                            · show (0:ℤ) ≤ v.escrow_balance - r.redeemed_amount
                              omega
                            · show v.escrow_balance - r.redeemed_amount ≤ (0:ℤ)
                              omega
                            · show (0:ℤ) ≤ v.initial_amount
                              omega
                          · rw [if_neg hc]
                            exact h.vouchersOk x hx
                        · unfold setVoucher
                          rw [map_key_map_of_key Voucher.id _ (fun x => setVoucher_key x _)]
                          exact h.idsNodup
                        · unfold setVoucher
                          refine forall_mem_map_of _ ?_
                          intro x hx
                          by_cases hc : x.id =
                            ({ v with escrow_balance := v.escrow_balance - r.redeemed_amount,
                                      remaining_balance := 0,
                                      status := VoucherStatus.LOCKED } : Voucher).id
                          · rw [if_pos hc]
                            exact h.idsBound v hvmem
                          · rw [if_neg hc]
                            exact h.idsBound x hx
                        · refine forall_mem_map_of _ ?_
                          intro y hy
                          rw [cascade_voucher v.id rid y]
                          have hy' : y ∈ setRedemption st.redemptions
                              { r with redemption_status := RedemptionStatus.REDEEMED } := hy
                          unfold setRedemption at hy'
                          rcases List.mem_map.mp hy' with ⟨x, hx, hxe⟩
                          rw [← hxe]
                          by_cases hcx : x.id =
                            ({ r with redemption_status := RedemptionStatus.REDEEMED } :
                              VoucherRedemption).id
                          · rw [if_pos hcx]
                            exact h.fkBound r hrmem
                          · rw [if_neg hcx]
                            exact h.fkBound x hx
                        · refine forall_mem_map_of _ ?_
                          intro y hy
                          rw [cascade_amount v.id rid y]
                          have hy' : y ∈ setRedemption st.redemptions
                              { r with redemption_status := RedemptionStatus.REDEEMED } := hy
                          unfold setRedemption at hy'
                          rcases List.mem_map.mp hy' with ⟨x, hx, hxe⟩
                          rw [← hxe]
                          by_cases hcx : x.id =
                            ({ r with redemption_status := RedemptionStatus.REDEEMED } :
                              VoucherRedemption).id
                          · rw [if_pos hcx]
                            exact h.amountsNonneg r hrmem
                          · rw [if_neg hcx]
                            exact h.amountsNonneg x hx
                        · intro q hq hp w hw
                          rcases List.mem_map.mp hq with ⟨y, hy, hye⟩
                          have hy' : y ∈ setRedemption st.redemptions
                              { r with redemption_status := RedemptionStatus.REDEEMED } := hy
                          unfold setRedemption at hy'
                          rcases List.mem_map.mp hy' with ⟨x, hx, hxe⟩
                          by_cases hcy : y.voucher = v.id ∧
                              y.redemption_status = RedemptionStatus.PENDING ∧ y.id ≠ rid
                          · rw [if_pos hcy] at hye
                            rw [← hye] at hp
                            exact absurd (show RedemptionStatus.CANCELLED =
                              RedemptionStatus.PENDING from hp) (by decide)
                          · rw [if_neg hcy] at hye
                            subst hye
                            by_cases hcx : x.id =
                              ({ r with redemption_status := RedemptionStatus.REDEEMED } :
                                VoucherRedemption).id
                            · rw [if_pos hcx] at hxe
                              rw [← hxe] at hp
                              exact absurd (show RedemptionStatus.REDEEMED =
                                RedemptionStatus.PENDING from hp) (by decide)
                            · rw [if_neg hcx] at hxe
                              subst hxe
                              have hxid : x.id ≠ rid := fun hh => hcx (hh.trans hrid.symm)
                              have hxv : x.voucher ≠ v.id := fun hvv => hcy ⟨hvv, hp, hxid⟩
                              have hw' : (setVoucher st.vouchers
                                  { v with escrow_balance := v.escrow_balance - r.redeemed_amount,
                                           remaining_balance := 0,
                                           status := VoucherStatus.LOCKED }).find?
                                  (fun y0 => y0.id == x.voucher) = some w := hw
                              rw [find?_setVoucher] at hw'
                              cases hold : st.vouchers.find? (fun y0 => y0.id == x.voucher) with
                              | none =>
                                rw [hold] at hw'
                                cases hw'
                              | some w0 =>
                                rw [hold, Option.map_some'] at hw'
                                have hw0 := Option.some.inj hw'
                                have hw0id : w0.id = x.voucher := by
                                  simpa using List.find?_some hold
                                have hneq : ¬ w0.id =
                                    ({ v with
                                        escrow_balance :=
                                          v.escrow_balance - r.redeemed_amount,
                                        remaining_balance := 0,
                                        status := VoucherStatus.LOCKED } : Voucher).id :=
                                  fun hh => hxv (hw0id.symm.trans hh)
                                rw [if_neg hneq] at hw0
                                rw [← hw0]
                                exact h.pendingActive x hx hp w0 hold
                      · rw [if_neg hz]
                        refine ⟨?_, ?_, ?_, ?_, ?_, ?_, h.walletsNonneg⟩
                        · unfold setVoucher
                          refine forall_mem_map_of _ ?_
                          intro x hx
                          by_cases hc : x.id =
                            ({ v with escrow_balance := v.escrow_balance - r.redeemed_amount,
                                      remaining_balance :=
                                        v.remaining_balance - r.redeemed_amount } : Voucher).id
                          · rw [if_pos hc]
                            refine ⟨?_, ?_, ?_, ?_⟩
                            · show (0:ℤ) ≤ v.escrow_balance - r.redeemed_amount
                              omega
                            · show v.escrow_balance - r.redeemed_amount ≤
                                v.remaining_balance - r.redeemed_amount
                              omega
                            · show v.remaining_balance - r.redeemed_amount ≤ v.initial_amount
                              omega
                            intro h0
                            have h0' : v.remaining_balance - r.redeemed_amount = 0 := h0
                            exact absurd (le_of_eq h0') hz
                          · rw [if_neg hc]
                            exact h.vouchersOk x hx
                        · unfold setVoucher
                          rw [map_key_map_of_key Voucher.id _ (fun x => setVoucher_key x _)]
                          exact h.idsNodup
                        · unfold setVoucher
                          refine forall_mem_map_of _ ?_
                          intro x hx
                          by_cases hc : x.id =
                            ({ v with escrow_balance := v.escrow_balance - r.redeemed_amount,
                                      remaining_balance :=
                                        v.remaining_balance - r.redeemed_amount } : Voucher).id
                          · rw [if_pos hc]
                            exact h.idsBound v hvmem
                          · rw [if_neg hc]
                            exact h.idsBound x hx
                        · unfold setRedemption
                          refine forall_mem_map_of _ ?_
                          intro x hx
                          by_cases hc : x.id =
                            ({ r with redemption_status := RedemptionStatus.REDEEMED } :
                              VoucherRedemption).id
                          · rw [if_pos hc]
                            exact h.fkBound r hrmem
                          · rw [if_neg hc]
                            exact h.fkBound x hx
                        · unfold setRedemption
                          refine forall_mem_map_of _ ?_
                          intro x hx
                          by_cases hc : x.id =
                            ({ r with redemption_status := RedemptionStatus.REDEEMED } :
                              VoucherRedemption).id
                          · rw [if_pos hc]
                            exact h.amountsNonneg r hrmem
                          · rw [if_neg hc]
                            exact h.amountsNonneg x hx
                        · refine pendingActive_after_set h.pendingActive rfl hvact ?_
                          intro q hq hp
                          have hq' : q ∈ setRedemption st.redemptions
                              { r with redemption_status := RedemptionStatus.REDEEMED } := hq
                          unfold setRedemption at hq'
                          rcases List.mem_map.mp hq' with ⟨x, hx, hxe⟩
                          by_cases hcx : x.id =
                            ({ r with redemption_status := RedemptionStatus.REDEEMED } :
                              VoucherRedemption).id
                          · rw [if_pos hcx] at hxe
                            rw [← hxe] at hp
                            exact absurd (show RedemptionStatus.REDEEMED =
                              RedemptionStatus.PENDING from hp) (by decide)
                          · rw [if_neg hcx] at hxe
                            subst hxe
                            exact ⟨x, hx, hp, rfl⟩
      · rw [if_neg hg]
        exact h

/-- Every reachable database state satisfies the inductive invariant. -/
theorem reachable_inv {st : St} (h : Reachable st) : Inv st := by
  induction h with
  | init vendors finances => exact Inv.init vendors finances
  | step _ hstep ih =>
    cases hstep with
    | deposit cust amount => exact inv_walletDeposit ih cust amount
    | vcreate now cust cat amount code =>
      exact inv_voucherCreate ih now cust cat amount code
    | activate cust vid => exact inv_voucherActivate ih cust vid
    | rcreate now vendorId code amount =>
      exact inv_redemptionCreate ih now vendorId code amount
    | rcancel cust rid => exact inv_redemptionCancel ih cust rid
    | rconfirm now cust rid => exact inv_redemptionConfirm ih now cust rid

/-! ### Claims -/

/-- Claim C1: in every reachable state, every voucher satisfies
`0 ≤ escrow_balance ≤ remaining_balance ≤ initial_amount`, and a voucher
whose `remaining_balance` is 0 is `LOCKED`; every modelled operation
(deposit, voucher creation, activation, redemption request, confirmation,
cancellation and the cascade cancellation inside confirmation) preserves
the predicate, which is exactly what the induction over `Reachable`
establishes. -/
theorem reachable_voucher_invariant {st : St} (h : Reachable st) :
    ∀ v ∈ st.vouchers, 0 ≤ v.escrow_balance ∧
      v.escrow_balance ≤ v.remaining_balance ∧
      v.remaining_balance ≤ v.initial_amount ∧
      (v.remaining_balance = 0 → v.status = VoucherStatus.LOCKED) :=
  (reachable_inv h).vouchersOk

def c1Vendors : List VendorProfile := [⟨20, Category.PHARMACY⟩]

def c1Finances : List VendorFinance := [⟨20, 0⟩]

/-- A concrete reachable state: deposit 500.00 into customer 1's wallet,
then create a 200.00 voucher. -/
def c1State : St :=
  (voucherCreate (walletDeposit (St.init c1Vendors c1Finances) 1 50000).1
    0 1 Category.PHARMACY 20000 "PP-C1AAAAAAAAA").1

theorem c1Reachable : Reachable c1State :=
  Reachable.step
    (Reachable.step (Reachable.init c1Vendors c1Finances) (Step.deposit _ 1 50000))
    (Step.vcreate _ 0 1 Category.PHARMACY 20000 "PP-C1AAAAAAAAA")

/-- The voucher row that `c1State` holds. -/
def c1Voucher : Voucher :=
  { id := 0, customer := 1, code := "PP-C1AAAAAAAAA", category := Category.PHARMACY,
    initial_amount := 20000, remaining_balance := 20000, escrow_balance := 0,
    status := VoucherStatus.PENDING_PAYMENT, expiry_date := some 2592000 }

/-- Witness for C1 at the concrete reachable state `c1State` and its
voucher. -/
theorem reachable_voucher_invariant_witness :
    0 ≤ c1Voucher.escrow_balance ∧
    c1Voucher.escrow_balance ≤ c1Voucher.remaining_balance ∧
    c1Voucher.remaining_balance ≤ c1Voucher.initial_amount ∧
    (c1Voucher.remaining_balance = 0 → c1Voucher.status = VoucherStatus.LOCKED) :=
  reachable_voucher_invariant c1Reachable c1Voucher (by decide)

/-- An ACTIVE, unexpired 200.00 voucher of customer 1 with empty escrow,
and a matching approved PHARMACY vendor with a finance record. -/
def c2St : St :=
  { wallets := [],
    vouchers := [{ id := 10, customer := 1, code := "PP-C2BBBBBBBBB",
                   category := Category.PHARMACY, initial_amount := 20000,
                   remaining_balance := 20000, escrow_balance := 0,
                   status := VoucherStatus.ACTIVE, expiry_date := none }],
    redemptions := [], vendors := [⟨20, Category.PHARMACY⟩],
    finances := [⟨20, 0⟩], nextVoucherId := 11, nextRedemptionId := 100 }

/-- Claim C2 (code bug, evaluated at the failing input): on an ACTIVE
voucher with `remaining_balance = 200.00` and `escrow_balance = 0`, a
vendor request for the full 200.00 succeeds, yet the voucher's
`escrow_balance` stays 0 (the code never calls any reserve step), a
second identical request for 200.00 succeeds as well instead of failing
with AmountExceedsBalance, and confirming the persisted request then
fails for lack of escrow — `VoucherRedemptionCreateSerializer` validates
against the gross `remaining_balance` and never increments
`escrow_balance`, which `VoucherRedemptionConfirmSerializer.update`
nevertheless requires as the money source. -/
theorem reserve_not_implemented_eval :
    (redemptionCreate c2St 0 20 "PP-C2BBBBBBBBB" 20000).2 = none ∧
    ((redemptionCreate c2St 0 20 "PP-C2BBBBBBBBB" 20000).1.vouchers.map
      Voucher.escrow_balance) = [0] ∧
    (redemptionCreate (redemptionCreate c2St 0 20 "PP-C2BBBBBBBBB" 20000).1
      0 20 "PP-C2BBBBBBBBB" 20000).2 = none ∧
    (redemptionConfirm (redemptionCreate c2St 0 20 "PP-C2BBBBBBBBB" 20000).1
      0 1 100).2 = some Err.insufficientEscrow :=
  ⟨rfl, rfl, rfl, rfl⟩

/-- Claim C3: when the owning customer confirms a PENDING redemption of
amount A against an ACTIVE, unexpired voucher with `escrow_balance ≥ A`
and `remaining_balance ≥ A` (and the vendor's finance record exists, as
`update` requires), the voucher's escrow and remaining balances each drop
by exactly A, the vendor's finance balance rises by exactly A, and the
request becomes REDEEMED — all inside one `transaction.atomic()` block,
which the embedding renders as a single state construction; every
validation failure returns an error with the state unchanged, by
construction of `redemptionConfirm`. -/
theorem confirm_moves_funds {st : St} {now : Int} {cust rid : Nat}
    {r : VoucherRedemption} {v : Voucher} {fin : VendorFinance}
    (hr : lookupRedemption st rid = some r)
    (hv : lookupVoucher st r.voucher = some v)
    (hown : v.customer = cust)
    (hp : r.redemption_status = RedemptionStatus.PENDING)
    (hact : v.status = VoucherStatus.ACTIVE)
    (hexp : expiredAt v now = false)
    (hfin : lookupFinance st r.vendor = some fin)
    (hesc : r.redeemed_amount ≤ v.escrow_balance)
    (hrem : r.redeemed_amount ≤ v.remaining_balance) :
    (redemptionConfirm st now cust rid).2 = none ∧
    (∃ v', lookupVoucher (redemptionConfirm st now cust rid).1 r.voucher = some v' ∧
      v'.escrow_balance = v.escrow_balance - r.redeemed_amount ∧
      v'.remaining_balance = v.remaining_balance - r.redeemed_amount) ∧
    (∃ fin', lookupFinance (redemptionConfirm st now cust rid).1 r.vendor = some fin' ∧
      fin'.balance = fin.balance + r.redeemed_amount) ∧
    (∃ r', lookupRedemption (redemptionConfirm st now cust rid).1 rid = some r' ∧
      r'.redemption_status = RedemptionStatus.REDEEMED) := by
  have hvid : v.id = r.voucher := lookupVoucher_id hv
  have hrid : r.id = rid := lookupRedemption_id hr
  unfold redemptionConfirm
  rw [hr]
  dsimp only
  rw [hv]
  dsimp only
  rw [if_pos ⟨hown, hp⟩,
    if_neg (show ¬r.redemption_status = RedemptionStatus.REDEEMED by rw [hp]; decide),
    if_neg (not_not_intro hact),
    if_neg (show ¬expiredAt v now = true by rw [hexp]; decide),
    hfin]
  dsimp only
  rw [if_neg (show ¬r.redemption_status = RedemptionStatus.REDEEMED by rw [hp]; decide),
    if_neg (not_lt.mpr hesc), if_neg (not_lt.mpr hrem)]
  by_cases hz : v.remaining_balance - r.redeemed_amount ≤ 0
  · rw [if_pos hz]
    refine ⟨rfl,
      ⟨{ v with escrow_balance := v.escrow_balance - r.redeemed_amount,
                remaining_balance := 0, status := VoucherStatus.LOCKED },
        find?_setVoucher_self hv rfl, rfl, ?_⟩,
      ⟨{ fin with balance := fin.balance + r.redeemed_amount },
        find?_setFinance_self hfin rfl, rfl⟩,
      ⟨{ r with redemption_status := RedemptionStatus.REDEEMED }, ?_, rfl⟩⟩
    · show (0 : ℤ) = v.remaining_balance - r.redeemed_amount
      omega
    · show (List.map (fun q =>
          if q.voucher = v.id ∧ q.redemption_status = RedemptionStatus.PENDING ∧
              q.id ≠ rid then
            { q with redemption_status := RedemptionStatus.CANCELLED }
          else q)
        (setRedemption st.redemptions
          { r with redemption_status := RedemptionStatus.REDEEMED })).find?
          (fun y => y.id == rid) =
        some { r with redemption_status := RedemptionStatus.REDEEMED }
      rw [find?_cascade,
        find?_setRedemption_self hr
          (show ({ r with redemption_status := RedemptionStatus.REDEEMED } :
            VoucherRedemption).id = r.id from rfl),
        Option.map_some',
        if_neg (by
          rintro ⟨-, hpp, -⟩
          exact absurd (show RedemptionStatus.REDEEMED = RedemptionStatus.PENDING
            from hpp) (by decide))]
  · rw [if_neg hz]
    exact ⟨rfl,
      ⟨{ v with escrow_balance := v.escrow_balance - r.redeemed_amount,
                remaining_balance := v.remaining_balance - r.redeemed_amount },
        find?_setVoucher_self hv rfl, rfl, rfl⟩,
      ⟨{ fin with balance := fin.balance + r.redeemed_amount },
        find?_setFinance_self hfin rfl, rfl⟩,
      ⟨{ r with redemption_status := RedemptionStatus.REDEEMED },
        find?_setRedemption_self hr rfl, rfl⟩⟩

/-- An ACTIVE voucher with 150.00 already held in escrow for a PENDING
150.00 request, a 200.00 remaining balance, and the vendor's finance
record at 5.00. -/
def c3Voucher : Voucher :=
  { id := 10, customer := 1, code := "PP-C3CCCCCCCCC",
    category := Category.PHARMACY, initial_amount := 30000,
    remaining_balance := 20000, escrow_balance := 15000,
    status := VoucherStatus.ACTIVE, expiry_date := none }

def c3Red : VoucherRedemption := ⟨100, 10, 20, 15000, RedemptionStatus.PENDING⟩

def c3St : St :=
  { wallets := [], vouchers := [c3Voucher], redemptions := [c3Red],
    vendors := [⟨20, Category.PHARMACY⟩], finances := [⟨20, 500⟩],
    nextVoucherId := 11, nextRedemptionId := 101 }

/-- Witness for C3 at the concrete state `c3St`. -/
theorem confirm_moves_funds_witness :
    (redemptionConfirm c3St 0 1 100).2 = none ∧
    (∃ v', lookupVoucher (redemptionConfirm c3St 0 1 100).1 10 = some v' ∧
      v'.escrow_balance = 15000 - 15000 ∧ v'.remaining_balance = 20000 - 15000) ∧
    (∃ fin', lookupFinance (redemptionConfirm c3St 0 1 100).1 20 = some fin' ∧
      fin'.balance = 500 + 15000) ∧
    (∃ r', lookupRedemption (redemptionConfirm c3St 0 1 100).1 100 = some r' ∧
      r'.redemption_status = RedemptionStatus.REDEEMED) :=
  confirm_moves_funds
    (show lookupRedemption c3St 100 = some c3Red from rfl)
    (show lookupVoucher c3St 10 = some c3Voucher from rfl)
    rfl rfl rfl rfl
    (show lookupFinance c3St 20 = some ⟨20, 500⟩ from rfl)
    (by decide) (by decide)

/-- An ACTIVE voucher whose whole 150.00 remainder is escrowed for the
PENDING request 100, with a second PENDING 50.00 request 101 on the same
voucher. -/
def c4Voucher : Voucher :=
  { id := 10, customer := 1, code := "PP-C4DDDDDDDDD",
    category := Category.PHARMACY, initial_amount := 30000,
    remaining_balance := 15000, escrow_balance := 15000,
    status := VoucherStatus.ACTIVE, expiry_date := none }

def c4Red : VoucherRedemption := ⟨100, 10, 20, 15000, RedemptionStatus.PENDING⟩

def c4St : St :=
  { wallets := [], vouchers := [c4Voucher],
    redemptions := [c4Red, ⟨101, 10, 20, 5000, RedemptionStatus.PENDING⟩],
    vendors := [⟨20, Category.PHARMACY⟩], finances := [⟨20, 0⟩],
    nextVoucherId := 11, nextRedemptionId := 102 }

/-- Counterexample to C4 as stated: confirming request 100 (150.00) on
`c4St` drains the voucher, locks it and cancels request 101 (50.00), but
the final `escrow_balance` is `150.00 − 150.00 = 0`, not
`150.00 − 150.00 − 50.00 = −50.00`: the cascade's bulk update flips only
the status column and releases no escrow for the cancelled request. -/
theorem confirm_cascade_no_release_cex :
    ((redemptionConfirm c4St 0 1 100).1.vouchers.map Voucher.escrow_balance)
      = [0] ∧
    ((redemptionConfirm c4St 0 1 100).1.redemptions.map
      VoucherRedemption.redemption_status) =
      [RedemptionStatus.REDEEMED, RedemptionStatus.CANCELLED] ∧
    (0 : ℤ) ≠ 15000 - 15000 - 5000 :=
  ⟨rfl, rfl, by decide⟩

/-- Claim C4 as amended: if a confirmation drives `remaining_balance` to
0, then within the same operation the voucher becomes LOCKED, every
other PENDING request on that voucher becomes CANCELLED, and the
voucher's `escrow_balance` is decremented by the confirmed amount only —
the cancelled requests' escrow is not released. -/
theorem confirm_drain_locks_and_cancels {st : St} {now : Int} {cust rid : Nat}
    {r : VoucherRedemption} {v : Voucher} {fin : VendorFinance}
    (hr : lookupRedemption st rid = some r)
    (hv : lookupVoucher st r.voucher = some v)
    (hown : v.customer = cust)
    (hp : r.redemption_status = RedemptionStatus.PENDING)
    (hact : v.status = VoucherStatus.ACTIVE)
    (hexp : expiredAt v now = false)
    (hfin : lookupFinance st r.vendor = some fin)
    (hesc : r.redeemed_amount ≤ v.escrow_balance)
    (hdrain : v.remaining_balance = r.redeemed_amount) :
    (redemptionConfirm st now cust rid).2 = none ∧
    (∃ v', lookupVoucher (redemptionConfirm st now cust rid).1 r.voucher = some v' ∧
      v'.status = VoucherStatus.LOCKED ∧ v'.remaining_balance = 0 ∧
      v'.escrow_balance = v.escrow_balance - r.redeemed_amount) ∧
    (∀ q ∈ st.redemptions, q.voucher = r.voucher → q.id ≠ rid →
      q.redemption_status = RedemptionStatus.PENDING →
      { q with redemption_status := RedemptionStatus.CANCELLED } ∈
        (redemptionConfirm st now cust rid).1.redemptions) := by
  have hvid : v.id = r.voucher := lookupVoucher_id hv
  have hrid : r.id = rid := lookupRedemption_id hr
  have hrem : r.redeemed_amount ≤ v.remaining_balance := le_of_eq hdrain.symm
  unfold redemptionConfirm
  rw [hr]
  dsimp only
  rw [hv]
  dsimp only
  rw [if_pos ⟨hown, hp⟩,
    if_neg (show ¬r.redemption_status = RedemptionStatus.REDEEMED by rw [hp]; decide),
    if_neg (not_not_intro hact),
    if_neg (show ¬expiredAt v now = true by rw [hexp]; decide),
    hfin]
  dsimp only
  rw [if_neg (show ¬r.redemption_status = RedemptionStatus.REDEEMED by rw [hp]; decide),
    if_neg (not_lt.mpr hesc), if_neg (not_lt.mpr hrem),
    if_pos (show v.remaining_balance - r.redeemed_amount ≤ 0 by omega)]
  refine ⟨rfl,
    ⟨{ v with escrow_balance := v.escrow_balance - r.redeemed_amount,
              remaining_balance := 0, status := VoucherStatus.LOCKED },
      find?_setVoucher_self hv rfl, rfl, rfl, rfl⟩, ?_⟩
  intro q hq hqv hqid hqp
  have h1 : q ∈ setRedemption st.redemptions
      { r with redemption_status := RedemptionStatus.REDEEMED } := by
    have hmem := List.mem_map_of_mem
      (fun x => if x.id = ({ r with redemption_status := RedemptionStatus.REDEEMED } :
          VoucherRedemption).id then
        { r with redemption_status := RedemptionStatus.REDEEMED } else x) hq
    dsimp only at hmem
    rwa [if_neg (fun hh => hqid (hh.trans hrid))] at hmem
  have h2 := List.mem_map_of_mem
    (fun x => if x.voucher = v.id ∧ x.redemption_status = RedemptionStatus.PENDING ∧
        x.id ≠ rid then
      { x with redemption_status := RedemptionStatus.CANCELLED } else x) h1
  dsimp only at h2
  rwa [if_pos ⟨hqv.trans hvid.symm, hqp, hqid⟩] at h2

/-- Witness for the amended C4 at the concrete state `c4St`: the sibling
PENDING request 101 comes out CANCELLED. -/
theorem confirm_drain_locks_and_cancels_witness :
    (redemptionConfirm c4St 0 1 100).2 = none ∧
    (∃ v', lookupVoucher (redemptionConfirm c4St 0 1 100).1 10 = some v' ∧
      v'.status = VoucherStatus.LOCKED ∧ v'.remaining_balance = 0 ∧
      v'.escrow_balance = 15000 - 15000) ∧
    (⟨101, 10, 20, 5000, RedemptionStatus.CANCELLED⟩ : VoucherRedemption) ∈
      (redemptionConfirm c4St 0 1 100).1.redemptions := by
  have h := confirm_drain_locks_and_cancels
    (show lookupRedemption c4St 100 = some c4Red from rfl)
    (show lookupVoucher c4St 10 = some c4Voucher from rfl)
    (show c4Voucher.customer = 1 from rfl) rfl rfl
    (show expiredAt c4Voucher 0 = false from rfl)
    (show lookupFinance c4St 20 = some ⟨20, 0⟩ from rfl)
    (by decide) rfl
  exact ⟨h.1, h.2.1, h.2.2 ⟨101, 10, 20, 5000, RedemptionStatus.PENDING⟩
    (by decide) rfl (by decide) rfl⟩

/-- Claim C5 as amended: confirming a redemption that is already REDEEMED
or CANCELLED fails and changes nothing — but the failure is a NotFound
(404), not a StateConflict, because `VoucherRedemptionConfirmView`'s
queryset only exposes the customer's PENDING redemptions, so a terminal
request never reaches the serializer's already-redeemed check. -/
theorem confirm_terminal_fails_notfound {st : St} {now : Int} {cust rid : Nat}
    {r : VoucherRedemption}
    (hr : lookupRedemption st rid = some r)
    (hterm : r.redemption_status = RedemptionStatus.REDEEMED ∨
      r.redemption_status = RedemptionStatus.CANCELLED) :
    redemptionConfirm st now cust rid = (st, some Err.notFound) := by
  unfold redemptionConfirm
  rw [hr]
  dsimp only
  cases hv : lookupVoucher st r.voucher with
  | none => rfl
  | some v =>
    dsimp only
    rw [if_neg (fun hcontra => by
      rcases hterm with h1 | h1 <;>
        exact absurd (h1.symm.trans hcontra.2) (by decide))]

def c5Red : VoucherRedemption := ⟨100, 10, 20, 15000, RedemptionStatus.REDEEMED⟩

/-- A state whose redemption 100 is already REDEEMED, on customer 1's
ACTIVE voucher. -/
def c5St : St :=
  { wallets := [],
    vouchers := [{ id := 10, customer := 1, code := "PP-C5EEEEEEEEE",
                   category := Category.PHARMACY, initial_amount := 30000,
                   remaining_balance := 15000, escrow_balance := 0,
                   status := VoucherStatus.ACTIVE, expiry_date := none }],
    redemptions := [c5Red], vendors := [⟨20, Category.PHARMACY⟩],
    finances := [⟨20, 15000⟩], nextVoucherId := 11, nextRedemptionId := 101 }

/-- Counterexample to C5 as stated: re-confirming the REDEEMED redemption
100 of `c5St` yields NotFound with the state unchanged — not the
StateConflict the claim names. -/
theorem confirm_terminal_notfound_cex :
    redemptionConfirm c5St 0 1 100 = (c5St, some Err.notFound) ∧
    Err.notFound ≠ Err.stateConflict :=
  ⟨rfl, by decide⟩

/-- Witness for the amended C5 at the concrete state `c5St`. -/
theorem confirm_terminal_fails_notfound_witness :
    redemptionConfirm c5St 0 1 100 = (c5St, some Err.notFound) :=
  confirm_terminal_fails_notfound
    (show lookupRedemption c5St 100 = some c5Red from rfl) (Or.inl rfl)

/-- Claim C6 as amended: cancelling one of the owner's PENDING redemption
requests sets its status to CANCELLED and touches nothing else — in
particular the voucher row, with its `escrow_balance` and
`remaining_balance`, is left exactly as it was (no `release` step
exists); a caller who is not the owner, or a request that is not
PENDING, gets NotFound with no change. -/
theorem cancel_spec {st : St} {cust rid : Nat} {r : VoucherRedemption}
    {v : Voucher}
    (hr : lookupRedemption st rid = some r)
    (hv : lookupVoucher st r.voucher = some v) :
    (v.customer = cust ∧ r.redemption_status = RedemptionStatus.PENDING →
      (redemptionCancel st cust rid).2 = none ∧
      (redemptionCancel st cust rid).1.vouchers = st.vouchers ∧
      (redemptionCancel st cust rid).1.wallets = st.wallets ∧
      lookupRedemption (redemptionCancel st cust rid).1 rid =
        some { r with redemption_status := RedemptionStatus.CANCELLED }) ∧
    (¬(v.customer = cust ∧ r.redemption_status = RedemptionStatus.PENDING) →
      redemptionCancel st cust rid = (st, some Err.notFound)) := by
  unfold redemptionCancel
  rw [hr]
  dsimp only
  rw [hv]
  dsimp only
  constructor
  · intro hg
    rw [if_pos hg]
    exact ⟨rfl, rfl, rfl, find?_setRedemption_self hr rfl⟩
  · intro hg
    rw [if_neg hg]

def c6Red : VoucherRedemption := ⟨100, 10, 20, 5000, RedemptionStatus.PENDING⟩

def c6Voucher : Voucher :=
  { id := 10, customer := 1, code := "PP-C6FFFFFFFFF",
    category := Category.HARDWARE, initial_amount := 30000,
    remaining_balance := 15000, escrow_balance := 10000,
    status := VoucherStatus.ACTIVE, expiry_date := none }

/-- Customer 1's ACTIVE voucher holds 100.00 in escrow while their 50.00
request 100 is PENDING. -/
def c6St : St :=
  { wallets := [], vouchers := [c6Voucher], redemptions := [c6Red],
    vendors := [⟨20, Category.HARDWARE⟩], finances := [⟨20, 0⟩],
    nextVoucherId := 11, nextRedemptionId := 101 }

/-- Counterexample to C6 as stated: cancelling the PENDING 50.00 request
on `c6St` marks it CANCELLED but leaves the voucher's `escrow_balance`
at 100.00 — the claim's decrement to `100.00 − 50.00` does not happen. -/
theorem cancel_no_escrow_release_cex :
    ((redemptionCancel c6St 1 100).1.vouchers.map Voucher.escrow_balance)
      = [10000] ∧
    ((redemptionCancel c6St 1 100).1.redemptions.map
      VoucherRedemption.redemption_status) = [RedemptionStatus.CANCELLED] ∧
    (10000 : ℤ) ≠ 10000 - 5000 :=
  ⟨rfl, rfl, by decide⟩

/-- Witness for the amended C6 at the concrete state `c6St`. -/
theorem cancel_spec_witness :
    (redemptionCancel c6St 1 100).2 = none ∧
    (redemptionCancel c6St 1 100).1.vouchers = c6St.vouchers ∧
    (redemptionCancel c6St 1 100).1.wallets = c6St.wallets ∧
    lookupRedemption (redemptionCancel c6St 1 100).1 100 =
      some ⟨100, 10, 20, 5000, RedemptionStatus.CANCELLED⟩ :=
  (cancel_spec (show lookupRedemption c6St 100 = some c6Red from rfl)
    (show lookupVoucher c6St 10 = some c6Voucher from rfl)).1 ⟨rfl, rfl⟩

/-- Claim C7: voucher creation with `initial_amount ≥ 100.00` fails with
InsufficientFunds when the customer's wallet balance is below the amount,
leaving everything unchanged; otherwise, in one transaction, it debits
the wallet by exactly the amount (never below 0) and inserts a voucher
with `remaining_balance = initial_amount`, `escrow_balance = 0` and the
pending-payment status.  (`hcode` says the freshly generated code is
unused, as the table's uniqueness constraint guarantees.) -/
theorem voucher_create_spec {st : St} {now : Int} {cust : Nat}
    {cat : Category} {amount : ℤ} {code : String} {w : CustomerVoucherWallet}
    (hamt : minVoucherAmount ≤ amount)
    (hw : lookupWallet st cust = some w)
    (hcode : lookupVoucherByCode st code = none) :
    (w.balance < amount →
      voucherCreate st now cust cat amount code = (st, some Err.insufficientFunds)) ∧
    (amount ≤ w.balance →
      (voucherCreate st now cust cat amount code).2 = none ∧
      lookupWallet (voucherCreate st now cust cat amount code).1 cust =
        some { w with balance := w.balance - amount } ∧
      0 ≤ w.balance - amount ∧
      ({ id := st.nextVoucherId, customer := cust, code := code, category := cat,
         initial_amount := amount, remaining_balance := amount, escrow_balance := 0,
         status := VoucherStatus.PENDING_PAYMENT,
         expiry_date := some (now + thirtyDays) } : Voucher) ∈
        (voucherCreate st now cust cat amount code).1.vouchers) := by
  unfold voucherCreate
  dsimp only
  rw [if_neg (not_lt.mpr hamt), ensureWallet_eq hw, hw]
  dsimp only
  constructor
  · intro hlt
    rw [if_pos hlt]
  · intro hle
    rw [if_neg (not_lt.mpr hle),
      if_neg (show ¬(lookupVoucherByCode st code).isSome = true by
        rw [hcode]; decide)]
    refine ⟨rfl, find?_setWallet_self hw rfl, by omega, ?_⟩
    exact List.mem_cons_self _ _

/-- Customer 1 holds 150.00 in their wallet; no vouchers exist yet. -/
def c7St : St :=
  { wallets := [⟨1, 15000⟩], vouchers := [], redemptions := [],
    vendors := [⟨20, Category.SCHOOL⟩], finances := [⟨20, 0⟩],
    nextVoucherId := 0, nextRedemptionId := 0 }

/-- Witness for C7 at the concrete state `c7St`: a 120.00 voucher is
funded from the 150.00 wallet. -/
theorem voucher_create_spec_witness :
    (voucherCreate c7St 0 1 Category.SCHOOL 12000 "PP-C7GGGGGGGGG").2 = none ∧
    lookupWallet (voucherCreate c7St 0 1 Category.SCHOOL 12000 "PP-C7GGGGGGGGG").1 1 =
      some ⟨1, 15000 - 12000⟩ ∧
    (0 : ℤ) ≤ 15000 - 12000 ∧
    ({ id := 0, customer := 1, code := "PP-C7GGGGGGGGG", category := Category.SCHOOL,
       initial_amount := 12000, remaining_balance := 12000, escrow_balance := 0,
       status := VoucherStatus.PENDING_PAYMENT,
       expiry_date := some (0 + thirtyDays) } : Voucher) ∈
      (voucherCreate c7St 0 1 Category.SCHOOL 12000 "PP-C7GGGGGGGGG").1.vouchers :=
  (voucher_create_spec (by decide)
    (show lookupWallet c7St 1 = some ⟨1, 15000⟩ from rfl) rfl).2 (by decide)

/-- Claim C8: in any reachable state, confirming an existing PENDING
redemption request whose voucher's `expiry_date` lies in the past is
rejected with the expired error and changes nothing (the error is raised
in `validate`, before any write; the embedding returns the input state
unchanged).  Reachability supplies the fact that a PENDING request's
voucher is ACTIVE, so the expiry check — which runs after the
status check — is the one that fires. -/
theorem confirm_expired_rejected {st : St} {now t : Int} {cust rid : Nat}
    {r : VoucherRedemption} {v : Voucher}
    (hreach : Reachable st)
    (hr : lookupRedemption st rid = some r)
    (hp : r.redemption_status = RedemptionStatus.PENDING)
    (hv : lookupVoucher st r.voucher = some v)
    (hown : v.customer = cust)
    (hexp : v.expiry_date = some t)
    (ht : t < now) :
    redemptionConfirm st now cust rid = (st, some Err.expired) := by
  have hact : v.status = VoucherStatus.ACTIVE :=
    (reachable_inv hreach).pendingActive r (mem_of_lookupRedemption hr) hp v hv
  unfold redemptionConfirm
  rw [hr]
  dsimp only
  rw [hv]
  dsimp only
  rw [if_pos ⟨hown, hp⟩,
    if_neg (show ¬r.redemption_status = RedemptionStatus.REDEEMED by rw [hp]; decide),
    if_neg (not_not_intro hact),
    if_pos (show expiredAt v now = true by
      unfold expiredAt
      rw [hexp]
      exact decide_eq_true ht)]

def c8Vendors : List VendorProfile := [⟨20, Category.PHARMACY⟩]

def c8Finances : List VendorFinance := [⟨20, 0⟩]

/-- A concrete reachable state: deposit, create a 200.00 voucher at time
0 (so it expires at time 2592000), activate it, and let vendor 20 lodge
a 60.00 redemption request while the voucher is still fresh. -/
def c8St : St :=
  (redemptionCreate
    (voucherActivate
      (voucherCreate (walletDeposit (St.init c8Vendors c8Finances) 1 50000).1
        0 1 Category.PHARMACY 20000 "PP-C8HHHHHHHHH").1
      1 0).1
    0 20 "PP-C8HHHHHHHHH" 6000).1

theorem c8Reachable : Reachable c8St :=
  Reachable.step (Reachable.step (Reachable.step (Reachable.step
    (Reachable.init c8Vendors c8Finances)
    (Step.deposit _ 1 50000))
    (Step.vcreate _ 0 1 Category.PHARMACY 20000 "PP-C8HHHHHHHHH"))
    (Step.activate _ 1 0))
    (Step.rcreate _ 0 20 "PP-C8HHHHHHHHH" 6000)

def c8Voucher : Voucher :=
  { id := 0, customer := 1, code := "PP-C8HHHHHHHHH", category := Category.PHARMACY,
    initial_amount := 20000, remaining_balance := 20000, escrow_balance := 0,
    status := VoucherStatus.ACTIVE, expiry_date := some 2592000 }

def c8Red : VoucherRedemption := ⟨0, 0, 20, 6000, RedemptionStatus.PENDING⟩

/-- Witness for C8: at time 3000000 the voucher of `c8St` has expired and
confirming its PENDING request is rejected with the expired error. -/
theorem confirm_expired_rejected_witness :
    redemptionConfirm c8St 3000000 1 0 = (c8St, some Err.expired) :=
  confirm_expired_rejected c8Reachable
    (show lookupRedemption c8St 0 = some c8Red from rfl) rfl
    (show lookupVoucher c8St 0 = some c8Voucher from rfl) rfl
    (show c8Voucher.expiry_date = some 2592000 from rfl) (by decide)

/-- Claim C9: activation succeeds exactly when the caller owns the
voucher and its status is the pending-payment status (the status named
`Voucher.PENDING` by the code), in which case the status becomes ACTIVE
and nothing else changes; a missing or foreign voucher yields NotFound
and any other status yields InvalidState, each leaving the state
unchanged. -/
theorem activate_spec (st : St) (cust vid : Nat) :
    (lookupVoucher st vid = none →
      voucherActivate st cust vid = (st, some Err.notFound)) ∧
    ∀ v, lookupVoucher st vid = some v →
      (v.customer ≠ cust → voucherActivate st cust vid = (st, some Err.notFound)) ∧
      (v.customer = cust → v.status ≠ VoucherStatus.PENDING_PAYMENT →
        voucherActivate st cust vid = (st, some Err.invalidState)) ∧
      (v.customer = cust → v.status = VoucherStatus.PENDING_PAYMENT →
        (voucherActivate st cust vid).2 = none ∧
        lookupVoucher (voucherActivate st cust vid).1 vid =
          some { v with status := VoucherStatus.ACTIVE }) := by
  constructor
  · intro hnone
    unfold voucherActivate
    rw [hnone]
  · intro v hv
    unfold voucherActivate
    rw [hv]
    dsimp only
    refine ⟨?_, ?_, ?_⟩
    · intro hne
      rw [if_pos hne]
    · intro hown hnst
      rw [if_neg (not_not_intro hown),
        if_pos (show v.status ≠ Voucher.PENDING from hnst)]
    · intro hown hst
      rw [if_neg (not_not_intro hown),
        if_neg (show ¬v.status ≠ Voucher.PENDING from not_not_intro hst)]
      exact ⟨rfl, find?_setVoucher_self hv rfl⟩

def c9Voucher : Voucher :=
  { id := 10, customer := 1, code := "PP-C9IIIIIIIII", category := Category.OTHER,
    initial_amount := 10000, remaining_balance := 10000, escrow_balance := 0,
    status := VoucherStatus.PENDING_PAYMENT, expiry_date := none }

/-- Customer 1 owns a single pending-payment voucher. -/
def c9St : St :=
  { wallets := [], vouchers := [c9Voucher], redemptions := [], vendors := [],
    finances := [], nextVoucherId := 11, nextRedemptionId := 0 }

/-- Witness for C9 at the concrete state `c9St`. -/
theorem activate_spec_witness :
    (voucherActivate c9St 1 10).2 = none ∧
    lookupVoucher (voucherActivate c9St 1 10).1 10 =
      some { c9Voucher with status := VoucherStatus.ACTIVE } :=
  ((activate_spec c9St 1 10).2 c9Voucher rfl).2.2 rfl rfl

/-- Claim C10: activation never consults `expiry_date` — a pending-payment
voucher owned by the caller whose expiry already lies in the past is
still activated to ACTIVE; only afterwards does a redemption request or
a confirmation on that voucher re-check expiry and reject with the
expired error. -/
theorem activate_ignores_expiry {st : St} {cust vid : Nat} {now t : Int}
    {v : Voucher}
    (hv : lookupVoucher st vid = some v)
    (hown : v.customer = cust)
    (hst : v.status = VoucherStatus.PENDING_PAYMENT)
    (hexp : v.expiry_date = some t)
    (ht : t < now) :
    (voucherActivate st cust vid).2 = none ∧
    lookupVoucher (voucherActivate st cust vid).1 vid =
      some { v with status := VoucherStatus.ACTIVE } ∧
    (∀ vendorId vendor amount,
      lookupVendor (voucherActivate st cust vid).1 vendorId = some vendor →
      lookupVoucherByCode (voucherActivate st cust vid).1 v.code =
        some { v with status := VoucherStatus.ACTIVE } →
      (redemptionCreate (voucherActivate st cust vid).1 now vendorId v.code
        amount).2 = some Err.expired) ∧
    (∀ rid r, lookupRedemption (voucherActivate st cust vid).1 rid = some r →
      r.voucher = vid → r.redemption_status = RedemptionStatus.PENDING →
      (redemptionConfirm (voucherActivate st cust vid).1 now cust rid).2 =
        some Err.expired) := by
  have hstate : voucherActivate st cust vid =
      ({ st with
          vouchers := setVoucher st.vouchers { v with status := VoucherStatus.ACTIVE } },
        none) := by
    unfold voucherActivate
    rw [hv]
    dsimp only
    rw [if_neg (not_not_intro hown),
      if_neg (show ¬v.status ≠ Voucher.PENDING from not_not_intro hst)]
  rw [hstate]
  refine ⟨rfl, find?_setVoucher_self hv rfl, ?_, ?_⟩
  · intro vendorId vendor amount hvend hcode
    unfold redemptionCreate
    rw [hvend]
    dsimp only
    rw [hcode]
    dsimp only
    rw [if_neg (show ¬({ v with status := VoucherStatus.ACTIVE } : Voucher).status ≠
        VoucherStatus.ACTIVE from not_not_intro rfl),
      if_pos (show expiredAt { v with status := VoucherStatus.ACTIVE } now = true by
        unfold expiredAt
        rw [show ({ v with status := VoucherStatus.ACTIVE } : Voucher).expiry_date =
          some t from hexp]
        exact decide_eq_true ht)]
  · intro rid r hr hrv hp
    unfold redemptionConfirm
    rw [hr]
    dsimp only
    rw [hrv]
    simp only [lookupVoucher]
    rw [find?_setVoucher_self hv
      (show ({ v with status := VoucherStatus.ACTIVE } : Voucher).id = v.id from rfl)]
    dsimp only
    rw [if_pos ⟨hown, hp⟩,
      if_neg (show ¬r.redemption_status = RedemptionStatus.REDEEMED by
        rw [hp]; decide),
      if_neg (show ¬({ v with status := VoucherStatus.ACTIVE } : Voucher).status ≠
        VoucherStatus.ACTIVE from not_not_intro rfl),
      if_pos (show expiredAt { v with status := VoucherStatus.ACTIVE } now = true by
        unfold expiredAt
        rw [show ({ v with status := VoucherStatus.ACTIVE } : Voucher).expiry_date =
          some t from hexp]
        exact decide_eq_true ht)]

def c10Voucher : Voucher :=
  { id := 10, customer := 1, code := "PP-CXJJJJJJJJJ", category := Category.PHARMACY,
    initial_amount := 20000, remaining_balance := 20000, escrow_balance := 0,
    status := VoucherStatus.PENDING_PAYMENT, expiry_date := some 100 }

def c10Red : VoucherRedemption := ⟨100, 10, 20, 6000, RedemptionStatus.PENDING⟩

/-- Customer 1's pending-payment voucher already expired at time 100; a
matching vendor exists, and a PENDING request sits on the voucher. -/
def c10St : St :=
  { wallets := [], vouchers := [c10Voucher], redemptions := [c10Red],
    vendors := [⟨20, Category.PHARMACY⟩], finances := [⟨20, 0⟩],
    nextVoucherId := 11, nextRedemptionId := 101 }

/-- Witness for C10 at the concrete state `c10St`, evaluated at time 500
(past the expiry 100). -/
theorem activate_ignores_expiry_witness :
    (voucherActivate c10St 1 10).2 = none ∧
    lookupVoucher (voucherActivate c10St 1 10).1 10 =
      some { c10Voucher with status := VoucherStatus.ACTIVE } ∧
    (redemptionCreate (voucherActivate c10St 1 10).1 500 20 "PP-CXJJJJJJJJJ"
      6000).2 = some Err.expired ∧
    (redemptionConfirm (voucherActivate c10St 1 10).1 500 1 100).2 =
      some Err.expired := by
  have h := activate_ignores_expiry
    (show lookupVoucher c10St 10 = some c10Voucher from rfl)
    rfl rfl (show c10Voucher.expiry_date = some 100 from rfl)
    (show (100 : ℤ) < 500 by decide)
  exact ⟨h.1, h.2.1, h.2.2.1 20 ⟨20, Category.PHARMACY⟩ 6000 rfl rfl,
    h.2.2.2 100 c10Red rfl rfl rfl⟩

end PurposePay
